import Mathlib

/-!
Shallow embedding of the LLM proxy service in `src/hosting-llm-ec2/app.py`.

JSON payloads are modelled by an inductive `Json` type; Python dicts that the
code builds key-by-key become ordered association lists `List (String × Json)`,
so that a key being absent is distinguishable from a key set to `null`.
Python truthiness of optional strings, lists and dicts is modelled explicitly.
The HTTP calls to the Ollama backend are modelled by passing the backend's
outcome (status, body, stream lines, or a raised exception) as an argument;
each endpoint handler becomes a total function from that outcome to the
response the caller observes, with Python `try`/`except` dispatch made
explicit via an exception type.
-/

namespace LlmService

/-- JSON values exchanged with the backend. Objects are ordered key-value
lists, mirroring Python dict insertion order. -/
inductive Json where
  | null : Json
  | bool : Bool → Json
  | num : Int → Json
  | str : String → Json
  | arr : List Json → Json
  | obj : List (String × Json) → Json

/-- Lookup of a key in an ordered JSON object (first occurrence wins,
as in a Python dict where each key is set at most once). -/
def getKey : List (String × Json) → String → Option Json
  | [], _ => none
  | (k, v) :: rest, key => if k = key then some v else getKey rest key

/-- Python truthiness of an `Optional[str]`: `None` and the empty string are
falsy. -/
def pyTruthyStr : Option String → Bool
  | none => false
  | some s => !s.isEmpty

/-- Python truthiness of an optional list or dict: `None` and the empty
collection are falsy. -/
def pyTruthyList {α : Type} : Option (List α) → Bool
  | none => false
  | some l => !l.isEmpty

/-- `ToolCall` from app.py: a single field `function : Dict[str, Any]`,
carried opaquely. -/
structure ToolCall where
  function : List (String × Json)

/-- `ChatMessage` from app.py: role plus optional content and tool calls. -/
structure ChatMessage where
  role : String
  content : Option String
  tool_calls : Option (List ToolCall)

/-- `ChatMessage.__init__` from app.py: after field assignment, if neither
`content` nor `tool_calls` is truthy, `content` is set to the empty string. -/
def ChatMessage.init (role : String) (content : Option String)
    (tool_calls : Option (List ToolCall)) : ChatMessage :=
  let m : ChatMessage := ⟨role, content, tool_calls⟩
  if !pyTruthyStr m.content && !pyTruthyList m.tool_calls then
    { m with content := some "" }
  else
    m

/-- `format_message_for_ollama` from app.py: build the backend-native message
dict key by key. -/
def format_message_for_ollama (message : ChatMessage) : List (String × Json) :=
  let m0 : List (String × Json) := [("role", Json.str message.role)]
  let m1 :=
    if pyTruthyStr message.content then
      m0 ++ [("content", Json.str (message.content.getD ""))]
    else m0
  let m2 :=
    if pyTruthyList message.tool_calls then
      m1 ++ [("tool_calls", Json.arr ((message.tool_calls.getD []).map
        (fun tc => Json.obj [("function", Json.obj tc.function)])))]
    else m1
  if !pyTruthyStr message.content && !pyTruthyList message.tool_calls then
    m2 ++ [("content", Json.str "")]
  else m2

/-- `ChatRequest` from app.py. `stream` is `Optional[bool]` (pydantic default
`False`; an explicit JSON `null` yields `none` here). -/
structure ChatRequest where
  messages : List ChatMessage
  model : String
  stream : Option Bool
  options : Option (List (String × Json))
  tools : Option (List Json)
  keep_alive : Option String

/-- The `ollama_request` dict built in `chat_completion` (app.py lines
202-214): `model`, `messages`, `stream` always; `options`, `tools`,
`keep_alive` appended only when truthy. `request.stream or False` is
`Option.getD false`. -/
def build_ollama_request (request : ChatRequest) : List (String × Json) :=
  let base : List (String × Json) :=
    [("model", Json.str request.model),
     ("messages", Json.arr (request.messages.map
        (fun m => Json.obj (format_message_for_ollama m)))),
     ("stream", Json.bool (request.stream.getD false))]
  let r1 :=
    if pyTruthyList request.options then
      base ++ [("options", Json.obj (request.options.getD []))]
    else base
  let r2 :=
    if pyTruthyList request.tools then
      r1 ++ [("tools", Json.arr (request.tools.getD []))]
    else r1
  if pyTruthyStr request.keep_alive then
    r2 ++ [("keep_alive", Json.str (request.keep_alive.getD ""))]
  else r2

/-- Outcome of the forwarded `POST /api/chat` call to the backend: either an
HTTP response (status, body text, and the body's lines for the streaming
case), or one of the exceptions the code's `except` clauses distinguish. -/
inductive BackendOutcome where
  | response : Nat → String → List String → BackendOutcome
  | timeout : BackendOutcome
  | connectError : BackendOutcome
  | otherError : String → BackendOutcome

/-- Python exceptions that can escape the body of `chat_completion`'s `try`
block, in the granularity its `except` clauses distinguish.
`httpException` carries the FastAPI `HTTPException(status_code, detail)`
raised at line 230 for a non-200 backend response. -/
inductive PyExc where
  | httpxTimeout : PyExc
  | httpxRequestError : PyExc
  | httpException : Nat → String → PyExc
  | other : String → PyExc

/-- Python `str(e)` for each exception; for a Starlette `HTTPException` it is
the string form of the status code, a colon and space, then the detail. -/
def PyExc.toMsg : PyExc → String
  | .httpException code detail => toString code ++ ": " ++ detail
  | .other msg => msg
  | .httpxTimeout => "timeout"
  | .httpxRequestError => "request error"

/-- What `chat_completion` returns to the caller: a buffered JSON body, a
streamed sequence of chunks, or an HTTP error (status, detail). -/
inductive ChatResult where
  | json : String → ChatResult
  | stream : List String → ChatResult
  | httpError : Nat → String → ChatResult

/-- The generator `stream_response` inside `chat_completion` (app.py lines
237-240): for each line of the backend stream, if the line is truthy
(non-empty) yield it with a newline appended; otherwise skip it. -/
def stream_response : List String → List String
  | [] => []
  | chunk :: rest =>
    if !chunk.isEmpty then (chunk ++ "\n") :: stream_response rest
    else stream_response rest

/-- The body of `chat_completion`'s `try` block (app.py lines 184-251),
evaluated against a backend outcome: an exception escapes as `.error`. -/
def chat_try_body (request : ChatRequest) (outcome : BackendOutcome) :
    Except PyExc ChatResult :=
  match outcome with
  | .timeout => .error .httpxTimeout
  | .connectError => .error .httpxRequestError
  | .otherError msg => .error (.other msg)
  | .response status body lines =>
    if status ≠ 200 then
      .error (.httpException status ("Ollama request failed: " ++ body))
    else if request.stream.getD false then
      .ok (.stream (stream_response lines))
    else
      .ok (.json body)

/-- `chat_completion` from app.py: the `try` body followed by the `except`
clauses in source order. The final `except Exception` clause matches every
exception not matched above it — including the `HTTPException` raised inside
the `try` for a non-200 backend response, which is therefore rewrapped as a
500 rather than re-raised. -/
def chat_completion (request : ChatRequest) (outcome : BackendOutcome) :
    ChatResult :=
  match chat_try_body request outcome with
  | .ok res => res
  | .error .httpxTimeout =>
      .httpError 504 "Request timeout - the model is taking too long to respond"
  | .error .httpxRequestError =>
      .httpError 503 "Unable to connect to Ollama service"
  | .error e =>
      .httpError 500 ("Internal server error: " ++ e.toMsg)

/-- Outcome of the backend `GET /api/tags` call made by the health checker:
either a response with a parsed JSON body, or a raised exception. -/
inductive TagsOutcome where
  | response : Nat → Json → TagsOutcome
  | failure : String → TagsOutcome

/-- `model["name"]` for one entry of the models list: `.error` when the
subscript would raise (entry is not a dict, or the key is missing). -/
def modelEntryName (entry : Json) : Except Unit Json :=
  match entry with
  | Json.obj fields =>
    match getKey fields "name" with
    | some v => .ok v
    | none => .error ()
  | _ => .error ()

/-- The list comprehension in `check_ollama_health`:
`[model["name"] for model in models_data.get("models", [])]`.
`.error` models an exception raised while extracting. -/
def extract_models (body : Json) : Except Unit (List Json) :=
  match body with
  | Json.obj fields =>
    match getKey fields "models" with
    | none => .ok []
    | some (Json.arr entries) => entries.mapM modelEntryName
    | some _ => .error ()
  | _ => .error ()

/-- Result of `check_ollama_health`: a status string and the model list. -/
structure OllamaHealth where
  status : String
  models : List Json

/-- `check_ollama_health` from app.py: 200 with a well-formed body is
healthy; any non-200 status, connection failure, or exception while reading
the body is caught and reported as unhealthy with no models — the function
never raises, which the embedding reflects by being total. -/
def check_ollama_health (outcome : TagsOutcome) : OllamaHealth :=
  match outcome with
  | .failure _ => ⟨"unhealthy", []⟩
  | .response status body =>
    if status = 200 then
      match extract_models body with
      | .ok models => ⟨"healthy", models⟩
      | .error _ => ⟨"unhealthy", []⟩
    else ⟨"unhealthy", []⟩

/-- `HealthResponse` from app.py. -/
structure HealthResponse where
  status : String
  timestamp : String
  ollama_status : String
  available_models : List Json

/-- `health_check` (the `GET /health` endpoint) from app.py; `now` stands for
`datetime.utcnow().isoformat()`. -/
def health_check (now : String) (outcome : TagsOutcome) : HealthResponse :=
  let h := check_ollama_health outcome
  ⟨if h.status = "healthy" then "healthy" else "degraded", now, h.status, h.models⟩

/-- Outcome of the backend `POST /api/show` call made by `get_model_info`. -/
inductive ShowOutcome where
  | response : Nat → Json → ShowOutcome
  | exception : String → ShowOutcome

/-- What `get_model_info` returns to the caller. -/
inductive InfoResult where
  | ok : Json → InfoResult
  | httpError : Nat → String → InfoResult

/-- `get_model_info` from app.py: 200 passes the body through, backend 404
becomes a 404 naming the model, any other status becomes a 500; the
`except HTTPException: raise` clause re-raises the inner `HTTPException`s
unchanged, and any other exception becomes a 500 with its message. -/
def get_model_info (model_name : String) (outcome : ShowOutcome) : InfoResult :=
  match outcome with
  | .exception msg => .httpError 500 msg
  | .response status body =>
    if status = 200 then .ok body
    else if status = 404 then
      .httpError 404 ("Model \x27" ++ model_name ++ "\x27 not found")
    else
      .httpError 500 ("Failed to get model info: " ++ toString status)

/-- Claim C1: the reshaped message always contains the `role` key, is never
missing both the `content` key and the `tool_calls` key, and when the input's
content and tool_calls are both empty/absent the output maps `content` to the
empty string. -/
theorem reshape_always_has_role_and_payload (m : ChatMessage) :
    getKey (format_message_for_ollama m) "role" = some (Json.str m.role) ∧
    (getKey (format_message_for_ollama m) "content" ≠ none ∨
     getKey (format_message_for_ollama m) "tool_calls" ≠ none) ∧
    (pyTruthyStr m.content = false → pyTruthyList m.tool_calls = false →
      getKey (format_message_for_ollama m) "content" = some (Json.str "")) := by
  cases hc : pyTruthyStr m.content <;> cases ht : pyTruthyList m.tool_calls <;>
    simp [format_message_for_ollama, getKey, hc, ht]

/-- Claim C1 witness: the invariant evaluated on a message with no content
and no tool calls. -/
theorem reshape_always_has_role_and_payload_witness :
    getKey (format_message_for_ollama (ChatMessage.mk "user" none none)) "role" =
      some (Json.str "user") ∧
    (getKey (format_message_for_ollama (ChatMessage.mk "user" none none)) "content" ≠ none ∨
     getKey (format_message_for_ollama (ChatMessage.mk "user" none none)) "tool_calls" ≠ none) ∧
    getKey (format_message_for_ollama (ChatMessage.mk "user" none none)) "content" =
      some (Json.str "") :=
  ⟨(reshape_always_has_role_and_payload (ChatMessage.mk "user" none none)).1,
   (reshape_always_has_role_and_payload (ChatMessage.mk "user" none none)).2.1,
   (reshape_always_has_role_and_payload (ChatMessage.mk "user" none none)).2.2 rfl rfl⟩

/-- Claim C2, evaluated on the code: when the backend answers a chat request
with status 404 and body "model missing", the caller does not receive the
backend's own status and body — the `HTTPException(404, ...)` raised inside
the `try` block is caught by the trailing `except Exception` clause and
rewrapped as a 500 whose detail embeds the stringified inner error. -/
theorem backend_error_rewrapped_as_500 :
    chat_completion ⟨[], "llama3.1:8b", some false, none, none, none⟩
        (.response 404 "model missing" []) =
      .httpError 500 "Internal server error: 404: Ollama request failed: model missing" := rfl

/-- Claim C3: the backend request carries exactly the keys `model`,
`messages`, `stream`, plus `options`, `tools`, `keep_alive` each present
if and only if the corresponding field is present and truthy; `model` is the
request's model, `messages` is the reshaped message list in order, `stream`
is the stream flag defaulted to false, and the optional keys, when present,
carry the input values. -/
theorem build_request_key_structure (r : ChatRequest) :
    (build_ollama_request r).map Prod.fst =
      ["model", "messages", "stream"]
        ++ (if pyTruthyList r.options then ["options"] else [])
        ++ (if pyTruthyList r.tools then ["tools"] else [])
        ++ (if pyTruthyStr r.keep_alive then ["keep_alive"] else []) ∧
    getKey (build_ollama_request r) "model" = some (Json.str r.model) ∧
    getKey (build_ollama_request r) "messages" =
      some (Json.arr (r.messages.map (fun m => Json.obj (format_message_for_ollama m)))) ∧
    getKey (build_ollama_request r) "stream" = some (Json.bool (r.stream.getD false)) ∧
    getKey (build_ollama_request r) "options" =
      (if pyTruthyList r.options then some (Json.obj (r.options.getD [])) else none) ∧
    getKey (build_ollama_request r) "tools" =
      (if pyTruthyList r.tools then some (Json.arr (r.tools.getD [])) else none) ∧
    getKey (build_ollama_request r) "keep_alive" =
      (if pyTruthyStr r.keep_alive then some (Json.str (r.keep_alive.getD "")) else none) := by
  cases ho : pyTruthyList r.options <;> cases htl : pyTruthyList r.tools <;>
    cases hk : pyTruthyStr r.keep_alive <;>
    simp [build_ollama_request, getKey, ho, htl, hk]

/-- Claim C4: a message with empty/absent content and non-empty tool calls
reshapes to an object without a `content` key whose `tool_calls` value is the
input tool calls in order, each wrapped as an object with the single key
`function` holding the input function mapping unchanged. -/
theorem reshape_tool_calls_passthrough (m : ChatMessage)
    (hc : pyTruthyStr m.content = false) (ht : pyTruthyList m.tool_calls = true) :
    getKey (format_message_for_ollama m) "content" = none ∧
    getKey (format_message_for_ollama m) "tool_calls" =
      some (Json.arr ((m.tool_calls.getD []).map
        (fun tc => Json.obj [("function", Json.obj tc.function)]))) := by
  simp [format_message_for_ollama, getKey, hc, ht]

/-- Claim C4 witness: the passthrough evaluated on an assistant message
carrying one tool call. -/
theorem reshape_tool_calls_passthrough_witness :
    getKey (format_message_for_ollama
        (ChatMessage.mk "assistant" none (some [ToolCall.mk [("name", Json.str "f")]])))
      "content" = none ∧
    getKey (format_message_for_ollama
        (ChatMessage.mk "assistant" none (some [ToolCall.mk [("name", Json.str "f")]])))
      "tool_calls" =
      some (Json.arr [Json.obj [("function", Json.obj [("name", Json.str "f")])]]) :=
  reshape_tool_calls_passthrough
    (ChatMessage.mk "assistant" none (some [ToolCall.mk [("name", Json.str "f")]])) rfl rfl

/-- Claim C5 counterexample: on a streaming request whose backend emits the
lines ["", "a"], the relay forwards only "a" — the empty line is dropped by
the truthiness guard, so not every backend line reaches the caller. -/
theorem stream_relay_drops_empty_line :
    chat_completion ⟨[], "llama3.1:8b", some true, none, none, none⟩
        (.response 200 "" ["", "a"]) = .stream ["a\n"] ∧
    ¬ stream_response ["", "a"] = ["", "a"].map (fun l => l ++ "\n") :=
  ⟨rfl, by decide⟩

/-- Claim C5 (amended): on a streaming request with a 200 backend response,
the relay forwards exactly the non-empty backend lines, each verbatim with a
newline terminator appended, in arrival order, with no merging, splitting or
reordering; empty lines are dropped. -/
theorem stream_relay_nonempty_lines_in_order (r : ChatRequest) (body : String)
    (lines : List String) (h : r.stream.getD false = true) :
    chat_completion r (.response 200 body lines) = .stream (stream_response lines) ∧
    stream_response lines =
      (lines.filter (fun l => !l.isEmpty)).map (fun l => l ++ "\n") := by
  refine ⟨by simp [chat_completion, chat_try_body, h], ?_⟩
  induction lines with
  | nil => rfl
  | cons c rest ih =>
    by_cases hc : c.isEmpty <;> simp [stream_response, List.filter, hc, ih]

/-- Claim C5 (amended) witness: the relay evaluated on a streaming request
with backend lines ["a", "b"]. -/
theorem stream_relay_nonempty_lines_in_order_witness :
    chat_completion ⟨[], "llama3.1:8b", some true, none, none, none⟩
        (.response 200 "" ["a", "b"]) = .stream ["a\n", "b\n"] ∧
    stream_response ["a", "b"] = ["a\n", "b\n"] :=
  stream_relay_nonempty_lines_in_order
    ⟨[], "llama3.1:8b", some true, none, none, none⟩ "" ["a", "b"] rfl

/-- Claim C6: a backend timeout yields a 504 to the caller, a connection
failure a 503, and any other unexpected failure a 500 whose detail wraps the
cause; each failure is reported, none is swallowed or retried. -/
theorem chat_failure_taxonomy (r : ChatRequest) (msg : String) :
    chat_completion r .timeout =
      .httpError 504 "Request timeout - the model is taking too long to respond" ∧
    chat_completion r .connectError =
      .httpError 503 "Unable to connect to Ollama service" ∧
    chat_completion r (.otherError msg) =
      .httpError 500 ("Internal server error: " ++ msg) :=
  ⟨rfl, rfl, rfl⟩

/-- Claim C7: the backend health check is a total function of the backend
outcome (it never raises); every non-200 response and every exception yields
status "unhealthy" with an empty model list, and the service-level endpoint
is "healthy" exactly when the backend check is, "degraded" otherwise, and is
never "unhealthy". -/
theorem health_check_never_throws_and_degrades (now : String) (status : Nat)
    (body : Json) (msg : String) (o : TagsOutcome) (h : status ≠ 200) :
    check_ollama_health (.response status body) = ⟨"unhealthy", []⟩ ∧
    check_ollama_health (.failure msg) = ⟨"unhealthy", []⟩ ∧
    ((health_check now o).status = "healthy" ↔
      (check_ollama_health o).status = "healthy") ∧
    (health_check now o).status ≠ "unhealthy" ∧
    ((check_ollama_health o).status ≠ "healthy" →
      (health_check now o).status = "degraded") ∧
    (health_check now o).ollama_status = (check_ollama_health o).status ∧
    (health_check now o).available_models = (check_ollama_health o).models := by
  refine ⟨by simp [check_ollama_health, h], rfl, ?_⟩
  by_cases hh : (check_ollama_health o).status = "healthy" <;>
    simp [health_check, hh]

/-- Claim C7 witness: the health behaviour evaluated on a backend that
answers 503. -/
theorem health_check_never_throws_and_degrades_witness :
    check_ollama_health (.response 503 Json.null) = ⟨"unhealthy", []⟩ ∧
    check_ollama_health (.failure "refused") = ⟨"unhealthy", []⟩ ∧
    ((health_check "t0" (.response 503 Json.null)).status = "healthy" ↔
      (check_ollama_health (.response 503 Json.null)).status = "healthy") ∧
    (health_check "t0" (.response 503 Json.null)).status ≠ "unhealthy" ∧
    ((check_ollama_health (.response 503 Json.null)).status ≠ "healthy" →
      (health_check "t0" (.response 503 Json.null)).status = "degraded") ∧
    (health_check "t0" (.response 503 Json.null)).ollama_status =
      (check_ollama_health (.response 503 Json.null)).status ∧
    (health_check "t0" (.response 503 Json.null)).available_models =
      (check_ollama_health (.response 503 Json.null)).models :=
  health_check_never_throws_and_degrades "t0" 503 Json.null "refused"
    (.response 503 Json.null) (by decide)

/-- Claim C8: after construction, a ChatMessage whose content and tool_calls
were both absent from the input has content equal to the empty string, and no
constructed ChatMessage has both fields absent/null simultaneously. -/
theorem chat_message_ctor_invariant (role : String) (c : Option String)
    (tc : Option (List ToolCall)) :
    (c = none → tc = none → (ChatMessage.init role c tc).content = some "") ∧
    ¬ ((ChatMessage.init role c tc).content = none ∧
       (ChatMessage.init role c tc).tool_calls = none) := by
  constructor
  · rintro rfl rfl; rfl
  · by_cases h : (!pyTruthyStr c && !pyTruthyList tc) = true
    · simp [ChatMessage.init, h]
    · simp [ChatMessage.init, h]
      rintro rfl rfl
      simp [pyTruthyStr, pyTruthyList] at h

/-- Claim C8 witness: the constructor invariant evaluated on a message built
with neither content nor tool calls. -/
theorem chat_message_ctor_invariant_witness :
    (ChatMessage.init "user" none none).content = some "" ∧
    ¬ ((ChatMessage.init "user" none none).content = none ∧
       (ChatMessage.init "user" none none).tool_calls = none) :=
  ⟨(chat_message_ctor_invariant "user" none none).1 rfl rfl,
   (chat_message_ctor_invariant "user" none none).2⟩

/-- Claim C9: a backend 404 on the model-detail call yields a 404 to the
caller whose detail names the model, and any other non-200 backend status
yields a 500. -/
theorem model_info_status_translation (name : String) (body : Json) (status : Nat)
    (h200 : status ≠ 200) (h404 : status ≠ 404) :
    get_model_info name (.response 404 body) =
      .httpError 404 ("Model \x27" ++ name ++ "\x27 not found") ∧
    get_model_info name (.response status body) =
      .httpError 500 ("Failed to get model info: " ++ toString status) :=
  ⟨rfl, by simp [get_model_info, h200, h404]⟩

/-- Claim C9 witness: the translation evaluated for model "foo" at backend
statuses 404 and 500. -/
theorem model_info_status_translation_witness :
    get_model_info "foo" (.response 404 Json.null) =
      .httpError 404 "Model \x27foo\x27 not found" ∧
    get_model_info "foo" (.response 500 Json.null) =
      .httpError 500 "Failed to get model info: 500" :=
  model_info_status_translation "foo" Json.null 500 (by decide) (by decide)

/-- Claim C10: when the request's stream field is null, the backend request
still maps `stream` to boolean false, and the `stream` key is never the JSON
null value. -/
theorem stream_key_never_null (r : ChatRequest) :
    (r.stream = none →
      getKey (build_ollama_request r) "stream" = some (Json.bool false)) ∧
    getKey (build_ollama_request r) "stream" ≠ some Json.null := by
  cases ho : pyTruthyList r.options <;> cases htl : pyTruthyList r.tools <;>
    cases hk : pyTruthyStr r.keep_alive <;>
    simp [build_ollama_request, getKey, ho, htl, hk] <;>
    rintro h <;> simp [h]

/-- Claim C10 witness: the stream key evaluated on a request whose stream
field is null. -/
theorem stream_key_never_null_witness :
    getKey (build_ollama_request ⟨[], "llama3.1:8b", none, none, none, none⟩) "stream" =
      some (Json.bool false) ∧
    getKey (build_ollama_request ⟨[], "llama3.1:8b", none, none, none, none⟩) "stream" ≠
      some Json.null :=
  ⟨(stream_key_never_null ⟨[], "llama3.1:8b", none, none, none, none⟩).1 rfl,
   (stream_key_never_null ⟨[], "llama3.1:8b", none, none, none, none⟩).2⟩

end LlmService
